import Mathlib

/-!
Verification of the scheduled, cascading entity-deletion subsystem and the
relay health-check endpoint of the repository, against its specification.

The health-check endpoint is embedded directly from
`src/sentry/api/endpoints/relay/health_check.py`.  The deletion subsystem
(scheduler, executor, dependency resolver, failure notifier) is exercised by
`tests/sentry/deletions/test_repository.py` but its implementation is not part
of the source tree fragment; those definitions are modelled from the spec, and
each such definition says so in its doc comment.
-/

namespace HackweekUptime

/-- Lifecycle status of a deletable entity (`sentry.constants.ObjectStatus`
as used by the deletion tests). -/
inductive ObjectStatus
  | active
  | pendingDeletion
  deriving DecidableEq

/-- A repository row: the root entity the deletion tests delete. -/
structure Repository where
  id : Nat
  organizationId : Nat
  provider : String
  name : String
  status : ObjectStatus
  deriving DecidableEq

/-- A commit row, a hard-cascade dependent of a repository, keyed by
`repositoryId` and carrying a (possibly colliding) `key` value. -/
structure Commit where
  id : Nat
  repositoryId : Nat
  organizationId : Nat
  key : String
  deriving DecidableEq

/-- A project row: the target of a detach relation; it must survive the
cascade. -/
structure Project where
  id : Nat
  deriving DecidableEq

/-- A `RepositoryProjectPathConfig` row: the detach-relation record linking a
repository to a project. -/
structure RepositoryProjectPathConfig where
  id : Nat
  projectId : Nat
  repositoryId : Nat
  deriving DecidableEq

/-- A `ProjectCodeOwners` row, hanging off a path configuration. -/
structure ProjectCodeOwners where
  id : Nat
  projectId : Nat
  pathConfigId : Nat
  deriving DecidableEq

/-- An `OrganizationOption` row; with the pending-deletion key it is the stale
marker left by an interrupted prior deletion attempt. -/
structure OrganizationOption where
  organizationId : Nat
  key : String
  value : String
  deriving DecidableEq

/-- The actor who requested a deletion; notifications are addressed to its
email. -/
structure Actor where
  email : String
  deriving DecidableEq

/-- A `ScheduledDeletion` record as described by the spec data model. -/
structure ScheduledDeletion where
  id : Nat
  targetId : Nat
  actor : Option Actor
  dueAt : Nat
  inProgress : Bool
  deriving DecidableEq

/-- An outbound notification message (`send_message` payload: recipients,
subject, body). -/
structure Message where
  subject : String
  recipients : List String
  body : String
  deriving DecidableEq

/-- The entity store plus schedule queue and notification outbox. -/
structure State where
  repositories : List Repository
  commits : List Commit
  projects : List Project
  pathConfigs : List RepositoryProjectPathConfig
  codeOwners : List ProjectCodeOwners
  orgOptions : List OrganizationOption
  schedules : List ScheduledDeletion
  outbox : List Message
  deriving DecidableEq

/-- The state with no rows anywhere. -/
def emptyState : State :=
  { repositories := [], commits := [], projects := [], pathConfigs := []
    codeOwners := [], orgOptions := [], schedules := [], outbox := [] }

/-- Modelled from the spec: outcome of the provider-dispatched external
cleanup capability `delete_external_resource`, classified as success, a
provider-originated error (e.g. `PluginError`) with its message, or an
unexpected/unclassified error with its message.  The provider implementations
themselves are missing from the source tree. -/
inductive CleanupResult
  | ok
  | providerError (msg : String)
  | unexpectedError (msg : String)
  deriving DecidableEq

/-- Modelled from the spec: the key of the stale pending-deletion marker for a
repository (`Repository.build_pending_deletion_key`, missing from the source
tree). -/
def build_pending_deletion_key (repoId : Nat) : String :=
  "pending-delete:Repository:" ++ toString repoId

/-- Modelled from the spec: the fixed subject of the failure notification, as
asserted by the deletion tests. -/
def failureSubject : String := "Unable to Delete Repository Webhooks"

/-- Modelled from the spec: the generic body used for unexpected errors; it
never mentions the error's own message text. -/
def genericFailureBody : String :=
  "An unknown error occurred while deleting this repository."

/-- Modelled from the spec: the body used for provider-classified errors; the
original message text is included verbatim. -/
def providerFailureBody (msg : String) : String :=
  "We were unable to delete your repository webhooks: " ++ msg

/-- Modelled from the spec: the Failure Notifier (`notify`), missing from the
source tree.  A provider-classified error is surfaced with its message text; an
unexpected error produces the generic body; with no actor nothing is sent. -/
def notifyOnFailure (actor : Option Actor) (res : CleanupResult)
    (outbox : List Message) : List Message :=
  match res with
  | CleanupResult.ok => outbox
  | CleanupResult.providerError msg =>
    match actor with
    | none => outbox
    | some a =>
      outbox ++ [{ subject := failureSubject, recipients := [a.email]
                   body := providerFailureBody msg }]
  | CleanupResult.unexpectedError _ =>
    match actor with
    | none => outbox
    | some a =>
      outbox ++ [{ subject := failureSubject, recipients := [a.email]
                   body := genericFailureBody }]

/-- Modelled from the spec: the Deletion Scheduler (`ScheduledDeletion.schedule`,
missing from the source tree): persist a schedule with
`due_at = now + delay`.  Per the tests it does not itself change the entity's
status. -/
def schedule (s : State) (schedId targetId : Nat) (actor : Option Actor)
    (now delay : Nat) : State :=
  { s with
    schedules := s.schedules ++
      [{ id := schedId, targetId := targetId, actor := actor
         dueAt := now + delay, inProgress := false }] }

/-- Modelled from the spec: the atomic claim of a schedule (the `in_progress`
flip, missing from the source tree): it succeeds exactly when the schedule is
not already in progress, and a failed claim leaves the record unchanged. -/
def claim (sd : ScheduledDeletion) : Bool × ScheduledDeletion :=
  if sd.inProgress then (false, sd)
  else (true, { sd with inProgress := true })

/-- Modelled from the spec: executing one claimed schedule (the body of the
Deletion Executor, missing from the source tree).  Reload the target; if it is
gone or no longer `PENDING_DELETION`, drop the schedule silently.  Otherwise
run the external cleanup, cascade over hard-dependents (commits) and detach
relations (path configurations and their code owners), clean any stale
pending-deletion marker, delete the root row, drop the schedule, and notify
the actor when the cleanup failed. -/
def executeSchedule (s : State) (sd : ScheduledDeletion)
    (cleanup : Nat → CleanupResult) : State :=
  match s.repositories.find? (fun r => r.id == sd.targetId) with
  | none => { s with schedules := s.schedules.filter (fun x => x.id != sd.id) }
  | some repo =>
    if repo.status == ObjectStatus.pendingDeletion then
      let res := cleanup repo.id
      let removedConfigIds :=
        (s.pathConfigs.filter (fun pc => pc.repositoryId == repo.id)).map
          (fun pc => pc.id)
      { repositories := s.repositories.filter (fun r => r.id != repo.id)
        commits := s.commits.filter (fun c => c.repositoryId != repo.id)
        projects := s.projects
        pathConfigs := s.pathConfigs.filter (fun pc => pc.repositoryId != repo.id)
        codeOwners := s.codeOwners.filter
          (fun co => !(removedConfigIds.contains co.pathConfigId))
        orgOptions := s.orgOptions.filter
          (fun o => !(o.organizationId == repo.organizationId &&
                      o.key == build_pending_deletion_key repo.id))
        schedules := s.schedules.filter (fun x => x.id != sd.id)
        outbox := notifyOnFailure sd.actor res s.outbox }
    else
      { s with schedules := s.schedules.filter (fun x => x.id != sd.id) }

/-- Modelled from the spec: the Deletion Executor entry point
(`run_scheduled_deletions` / `run_due`, missing from the source tree): claim
and execute every due, unclaimed schedule. -/
def run_due (s : State) (now : Nat) (cleanup : Nat → CleanupResult) : State :=
  let due := s.schedules.filter (fun sd => decide (sd.dueAt ≤ now) && !sd.inProgress)
  due.foldl (fun st sd => executeSchedule st sd cleanup) s

/-- An HTTP request, opaque to the health-check handler (the handler never
inspects it). -/
structure Request where
  raw : String
  deriving DecidableEq

/-- An HTTP response: a boolean JSON payload (association list) and a status
code, matching `Response({...}, status=...)`. -/
structure HttpResponse where
  payload : List (String × Bool)
  status : Nat
  deriving DecidableEq

namespace RelayHealthCheck

/-- `authentication_classes = ()` from
`src/sentry/api/endpoints/relay/health_check.py`. -/
def authentication_classes : List String := []

/-- `permission_classes = ()` from
`src/sentry/api/endpoints/relay/health_check.py`. -/
def permission_classes : List String := []

/-- The `get` handler from `src/sentry/api/endpoints/relay/health_check.py`:
`return Response({"is_healthy": True}, status=200)`, ignoring the request. -/
def get (_req : Request) : HttpResponse :=
  { payload := [("is_healthy", true)], status := 200 }

end RelayHealthCheck

/-- Dispatch of a GET request to the health-check endpoint in a server whose
deletion-subsystem state is `s`: the handler body constructs a constant
response and touches no state, so the state passes through unchanged. -/
def healthCheckDispatch (s : State) (req : Request) : HttpResponse × State :=
  (RelayHealthCheck.get req, s)

/-- The one-repository, one-schedule state family used by the deletion tests:
a repository with the given status, and a schedule created for it with delay
zero at time zero. -/
def singleRepoState (repoId orgId schedId : Nat) (st : ObjectStatus)
    (actor : Option Actor) : State :=
  schedule
    { emptyState with
      repositories := [{ id := repoId, organizationId := orgId
                         provider := "dummy", name := "example/example"
                         status := st }] }
    schedId repoId actor 0 0

/-- The two-repository, two-commit state of the key-collision test: the first
repository is `PENDING_DELETION` and scheduled; each repository has a commit
and both commits share the same `key` value. -/
def keyCollisionState (repoId1 repoId2 orgId commitId1 commitId2 schedId : Nat)
    (k : String) : State :=
  schedule
    { emptyState with
      repositories :=
        [{ id := repoId1, organizationId := orgId, provider := "dummy"
           name := "example/example", status := ObjectStatus.pendingDeletion },
         { id := repoId2, organizationId := orgId, provider := "dummy"
           name := "example/example2", status := ObjectStatus.active }]
      commits :=
        [{ id := commitId1, repositoryId := repoId1, organizationId := orgId
           key := k },
         { id := commitId2, repositoryId := repoId2, organizationId := orgId
           key := k }] }
    schedId repoId1 none 0 0

/-- The detach-relation state of the codeowners test: a `PENDING_DELETION`
repository linked to a project through a path configuration, with a codeowners
record hanging off the path configuration. -/
def detachRelationState (repoId orgId projId pcId coId schedId : Nat) : State :=
  schedule
    { emptyState with
      repositories :=
        [{ id := repoId, organizationId := orgId, provider := "dummy"
           name := "example/example", status := ObjectStatus.pendingDeletion }]
      projects := [{ id := projId }]
      pathConfigs := [{ id := pcId, projectId := projId, repositoryId := repoId }]
      codeOwners := [{ id := coId, projectId := projId, pathConfigId := pcId }] }
    schedId repoId none 0 0

/-- The botched-deletion state: a `PENDING_DELETION` repository together with
a stale pending-deletion marker for it, left by a prior interrupted attempt. -/
def staleMarkerState (repoId orgId schedId : Nat) : State :=
  schedule
    { emptyState with
      repositories :=
        [{ id := repoId, organizationId := orgId, provider := "dummy"
           name := "example/example", status := ObjectStatus.pendingDeletion }]
      orgOptions :=
        [{ organizationId := orgId, key := build_pending_deletion_key repoId
           value := "" }] }
    schedId repoId none 0 0

/-- Character-list prefix test, used to define substring containment. -/
def listPrefixEq : List Char → List Char → Bool
  | [], _ => true
  | _ :: _, [] => false
  | a :: as, b :: bs => a == b && listPrefixEq as bs

/-- Containment of a character-list pattern somewhere inside a list. -/
def containsAux (pat : List Char) : List Char → Bool
  | [] => listPrefixEq pat []
  | c :: cs => listPrefixEq pat (c :: cs) || containsAux pat cs

/-- `strContains s pat` holds when `pat` occurs as a contiguous substring of
`s`. -/
def strContains (s pat : String) : Bool :=
  containsAux pat.data s.data

theorem listPrefixEq_refl (l : List Char) : listPrefixEq l l = true := by
  induction l with
  | nil => rfl
  | cons a as ih => simp [listPrefixEq, ih]

theorem containsAux_self (pat : List Char) : containsAux pat pat = true := by
  cases pat with
  | nil => rfl
  | cons c cs => simp [containsAux, listPrefixEq_refl]

theorem containsAux_append_self (a pat : List Char) :
    containsAux pat (a ++ pat) = true := by
  induction a with
  | nil => simpa using containsAux_self pat
  | cons x xs ih => simp [containsAux, ih]

theorem strContains_append_right (a b : String) :
    strContains (a ++ b) b = true := by
  simp [strContains, String.data_append, containsAux_append_self]

/-- C1: a scheduled deletion of a `PENDING_DELETION` repository whose external
cleanup raises a provider-classified error still deletes the root entity, and
exactly one notification is sent with the fixed failure subject, addressed to
the requesting actor, whose body contains the error's message text verbatim. -/
theorem providerError_deletes_root_and_notifies_verbatim
    (repoId orgId schedId : Nat) (a : Actor) (msg : String) :
    let result := run_due
      (singleRepoState repoId orgId schedId ObjectStatus.pendingDeletion (some a))
      0 (fun _ => CleanupResult.providerError msg)
    result.repositories = [] ∧
    result.outbox = [{ subject := failureSubject, recipients := [a.email]
                       body := providerFailureBody msg }] ∧
    strContains (providerFailureBody msg) msg = true := by
  refine ⟨?_, ?_, ?_⟩
  · simp [run_due, singleRepoState, schedule, emptyState, executeSchedule,
      notifyOnFailure]
  · simp [run_due, singleRepoState, schedule, emptyState, executeSchedule,
      notifyOnFailure]
  · exact strContains_append_right _ msg

/-- C2: a scheduled deletion of a `PENDING_DELETION` repository whose external
cleanup raises an unexpected, unclassified error still sends a notification and
still deletes the root entity, but the notification body is the fixed generic
body, independent of the error, and (whenever the error text is not by
coincidence part of that fixed wording) the body does not contain the error's
message text. -/
theorem unexpectedError_notifies_generic_body
    (repoId orgId schedId : Nat) (a : Actor) (msg : String)
    (h : strContains genericFailureBody msg = false) :
    let result := run_due
      (singleRepoState repoId orgId schedId ObjectStatus.pendingDeletion (some a))
      0 (fun _ => CleanupResult.unexpectedError msg)
    result.outbox = [{ subject := failureSubject, recipients := [a.email]
                       body := genericFailureBody }] ∧
    result.outbox.map (fun m => strContains m.body msg) = [false] ∧
    result.repositories = [] := by
  refine ⟨?_, ?_, ?_⟩
  · simp [run_due, singleRepoState, schedule, emptyState, executeSchedule,
      notifyOnFailure]
  · simp [run_due, singleRepoState, schedule, emptyState, executeSchedule,
      notifyOnFailure, h]
  · simp [run_due, singleRepoState, schedule, emptyState, executeSchedule,
      notifyOnFailure]

/-- C2 witness: with the unexpected error message "secrets", the notification
is sent with the generic body, no sent body contains "secrets", and the
repository is deleted. -/
theorem unexpectedError_notifies_generic_body_witness :
    strContains genericFailureBody "secrets" = false ∧
    (let result := run_due
      (singleRepoState 1 2 3 ObjectStatus.pendingDeletion (some { email := "owner@example.com" }))
      0 (fun _ => CleanupResult.unexpectedError "secrets")
     result.outbox = [{ subject := failureSubject
                        recipients := ["owner@example.com"]
                        body := genericFailureBody }] ∧
     result.outbox.map (fun m => strContains m.body "secrets") = [false] ∧
     result.repositories = []) :=
  ⟨by decide,
   unexpectedError_notifies_generic_body 1 2 3 { email := "owner@example.com" }
     "secrets" (by decide)⟩

/-- C3: a scheduled deletion whose target repository is not `PENDING_DELETION`
when the executor runs leaves the repository intact, deletes the schedule
record, and emits no notification, whatever the cleanup outcome and whoever
the actor is. -/
theorem non_pending_entity_left_intact
    (repoId orgId schedId : Nat) (st : ObjectStatus) (actor : Option Actor)
    (cleanup : Nat → CleanupResult)
    (h : st ≠ ObjectStatus.pendingDeletion) :
    let result := run_due (singleRepoState repoId orgId schedId st actor) 0 cleanup
    result.repositories =
      [{ id := repoId, organizationId := orgId, provider := "dummy"
         name := "example/example", status := st }] ∧
    result.schedules = [] ∧
    result.outbox = [] := by
  refine ⟨?_, ?_, ?_⟩ <;>
    simp [run_due, singleRepoState, schedule, emptyState, executeSchedule, h]

/-- C3 witness: an `ACTIVE` repository survives the run, the stale schedule is
removed, and nothing is sent. -/
theorem non_pending_entity_left_intact_witness :
    ObjectStatus.active ≠ ObjectStatus.pendingDeletion ∧
    (let result := run_due (singleRepoState 1 2 3 ObjectStatus.active none) 0
       (fun _ => CleanupResult.ok)
     result.repositories =
       [{ id := 1, organizationId := 2, provider := "dummy"
          name := "example/example", status := ObjectStatus.active }] ∧
     result.schedules = [] ∧
     result.outbox = []) :=
  ⟨by decide,
   non_pending_entity_left_intact 1 2 3 ObjectStatus.active none
     (fun _ => CleanupResult.ok) (by decide)⟩

/-- C4: deleting a scheduled `PENDING_DELETION` repository removes it and its
own commit, while an unrelated repository and that repository's commit with
the very same `key` value survive, and no schedule record remains. -/
theorem cascade_respects_ownership_not_keys
    (repoId1 repoId2 orgId commitId1 commitId2 schedId : Nat) (k : String)
    (h : repoId1 ≠ repoId2) :
    (run_due
      (keyCollisionState repoId1 repoId2 orgId commitId1 commitId2 schedId k)
      0 (fun _ => CleanupResult.ok)).repositories =
      [{ id := repoId2, organizationId := orgId, provider := "dummy"
         name := "example/example2", status := ObjectStatus.active }] ∧
    (run_due
      (keyCollisionState repoId1 repoId2 orgId commitId1 commitId2 schedId k)
      0 (fun _ => CleanupResult.ok)).commits =
      [{ id := commitId2, repositoryId := repoId2, organizationId := orgId
         key := k }] ∧
    (run_due
      (keyCollisionState repoId1 repoId2 orgId commitId1 commitId2 schedId k)
      0 (fun _ => CleanupResult.ok)).schedules = [] := by
  refine ⟨?_, ?_, ?_⟩ <;>
    simp [run_due, keyCollisionState, schedule, emptyState, executeSchedule,
      Ne.symm h]

/-- C4 witness: with repository ids 1 and 2, commit ids 10 and 20 and shared
key "1234abcd", only the unrelated repository and its commit survive. -/
theorem cascade_respects_ownership_not_keys_witness :
    (1 : Nat) ≠ 2 ∧
    ((run_due (keyCollisionState 1 2 5 10 20 7 "1234abcd") 0
       (fun _ => CleanupResult.ok)).repositories =
       [{ id := 2, organizationId := 5, provider := "dummy"
          name := "example/example2", status := ObjectStatus.active }] ∧
     (run_due (keyCollisionState 1 2 5 10 20 7 "1234abcd") 0
       (fun _ => CleanupResult.ok)).commits =
       [{ id := 20, repositoryId := 2, organizationId := 5
          key := "1234abcd" }] ∧
     (run_due (keyCollisionState 1 2 5 10 20 7 "1234abcd") 0
       (fun _ => CleanupResult.ok)).schedules = []) :=
  ⟨by decide,
   cascade_respects_ownership_not_keys 1 2 5 10 20 7 "1234abcd" (by decide)⟩

/-- C5: deleting a scheduled `PENDING_DELETION` repository with a
detach-relation path configuration removes the repository, the path
configuration and the codeowners record hanging off it, while the detached
project itself survives. -/
theorem detach_relation_target_survives
    (repoId orgId projId pcId coId schedId : Nat) :
    (run_due (detachRelationState repoId orgId projId pcId coId schedId)
      0 (fun _ => CleanupResult.ok)).repositories = [] ∧
    (run_due (detachRelationState repoId orgId projId pcId coId schedId)
      0 (fun _ => CleanupResult.ok)).pathConfigs = [] ∧
    (run_due (detachRelationState repoId orgId projId pcId coId schedId)
      0 (fun _ => CleanupResult.ok)).codeOwners = [] ∧
    (run_due (detachRelationState repoId orgId projId pcId coId schedId)
      0 (fun _ => CleanupResult.ok)).projects = [{ id := projId }] := by
  refine ⟨?_, ?_, ?_, ?_⟩ <;>
    simp [run_due, detachRelationState, schedule, emptyState, executeSchedule]

/-- C6: a pre-existing stale pending-deletion marker does not prevent a fresh
scheduled run from deleting the repository, and the marker is cleaned up as a
side effect of the run. -/
theorem stale_marker_cleaned_and_deletion_succeeds
    (repoId orgId schedId : Nat) :
    (run_due (staleMarkerState repoId orgId schedId) 0
      (fun _ => CleanupResult.ok)).repositories = [] ∧
    (run_due (staleMarkerState repoId orgId schedId) 0
      (fun _ => CleanupResult.ok)).orgOptions = [] ∧
    (run_due (staleMarkerState repoId orgId schedId) 0
      (fun _ => CleanupResult.ok)).schedules = [] := by
  refine ⟨?_, ?_, ?_⟩ <;>
    simp [run_due, staleMarkerState, schedule, emptyState, executeSchedule]

/-- C7: a claimed schedule is always consumed: after executing it, no schedule
with its id remains, in every branch (target missing, precondition changed,
success, or failure), and in particular a full run over the one-schedule
family leaves no `ScheduledDeletion` record at all, whatever the target's
status, the actor and the cleanup outcome — nothing is re-inserted for retry. -/
theorem schedule_never_left_dangling
    (s : State) (sd : ScheduledDeletion) (cleanup : Nat → CleanupResult)
    (repoId orgId schedId : Nat) (st : ObjectStatus) (actor : Option Actor)
    (cleanup' : Nat → CleanupResult) :
    (executeSchedule s sd cleanup).schedules.all (fun x => x.id != sd.id) = true ∧
    (run_due (singleRepoState repoId orgId schedId st actor) 0 cleanup').schedules
      = [] := by
  constructor
  · unfold executeSchedule
    cases hf : s.repositories.find? (fun r => r.id == sd.targetId) with
    | none =>
      rw [List.all_eq_true]
      intro x hx
      simpa using (List.mem_filter.mp hx).2
    | some repo =>
      by_cases hst : repo.status == ObjectStatus.pendingDeletion
      · simp only [hst, if_pos]
        rw [List.all_eq_true]
        intro x hx
        simpa using (List.mem_filter.mp hx).2
      · simp only [hst, if_neg]
        rw [List.all_eq_true]
        intro x hx
        simpa using (List.mem_filter.mp hx).2
  · cases st <;>
      simp [run_due, singleRepoState, schedule, emptyState, executeSchedule]

/-- C8: the claim of a schedule is an atomic step that succeeds exactly when
the schedule is unclaimed, so of two claim attempts on the same schedule (the
two interleavings of two atomic steps coincide with running them in sequence)
exactly one succeeds, and the loser gets a no-op: its attempt reports failure
and leaves the record unchanged. -/
theorem claim_mutually_exclusive
    (sd : ScheduledDeletion) (h : sd.inProgress = false) :
    (claim sd).fst = true ∧
    (claim (claim sd).snd).fst = false ∧
    (claim (claim sd).snd).snd = (claim sd).snd := by
  simp [claim, h]

/-- C8 witness: on a concrete unclaimed schedule, the first claim wins and the
second is a failed no-op. -/
theorem claim_mutually_exclusive_witness :
    ({ id := 1, targetId := 2, actor := none, dueAt := 0
       inProgress := false } : ScheduledDeletion).inProgress = false ∧
    (let sd : ScheduledDeletion :=
       { id := 1, targetId := 2, actor := none, dueAt := 0, inProgress := false }
     (claim sd).fst = true ∧
     (claim (claim sd).snd).fst = false ∧
     (claim (claim sd).snd).snd = (claim sd).snd) :=
  ⟨rfl, claim_mutually_exclusive
    { id := 1, targetId := 2, actor := none, dueAt := 0, inProgress := false }
    rfl⟩

/-- C9: every GET request to the health-check endpoint yields the fixed
success payload with status 200 and leaves any server state unchanged, and the
endpoint declares no authentication and no permission classes. -/
theorem health_check_fixed_and_stateless (s : State) (req : Request) :
    healthCheckDispatch s req =
      ({ payload := [("is_healthy", true)], status := 200 }, s) ∧
    RelayHealthCheck.authentication_classes = [] ∧
    RelayHealthCheck.permission_classes = [] :=
  ⟨rfl, rfl, rfl⟩

/-- C10: whenever a failed repository-deletion run sends a notification, its
subject is exactly "Unable to Delete Repository Webhooks", identically for
provider-classified failures and for unexpected failures. -/
theorem failure_subject_is_fixed
    (repoId orgId schedId : Nat) (a : Actor) (msg1 msg2 : String) :
    (run_due
      (singleRepoState repoId orgId schedId ObjectStatus.pendingDeletion (some a))
      0 (fun _ => CleanupResult.providerError msg1)).outbox.map Message.subject
      = ["Unable to Delete Repository Webhooks"] ∧
    (run_due
      (singleRepoState repoId orgId schedId ObjectStatus.pendingDeletion (some a))
      0 (fun _ => CleanupResult.unexpectedError msg2)).outbox.map Message.subject
      = ["Unable to Delete Repository Webhooks"] := by
  refine ⟨?_, ?_⟩ <;>
    simp [run_due, singleRepoState, schedule, emptyState, executeSchedule,
      notifyOnFailure, failureSubject]

end HackweekUptime
